/-
Verification of the OrcaStatLLM researcher pipeline against its
natural-language specification.

Each Python component named in the claims is shallowly embedded as an
executable Lean definition: instance attributes become explicit state
records, in-place mutation becomes state passing, `time.time()` becomes an
explicit clock argument, and fallible operations return `Option`.
Strings are modelled by Lean `String` (Python `len` on `str` counts code
points, as does `String.length`); ASCII is assumed where Python applies
unicode case folding or `\s`/`\w` character classes, which is faithful for
the URL and content data these components receive.
-/
import Mathlib

namespace Py

/-- ASCII model of Python `str.lower` on a single character. -/
def lowerChar (c : Char) : Char :=
  if 'A' ≤ c ∧ c ≤ 'Z' then Char.ofNat (c.toNat + 32) else c

/-- ASCII model of Python `str.lower`. -/
def lower (s : String) : String :=
  String.mk (s.data.map lowerChar)

/-- ASCII model of the Python regex class `\s` (whitespace). -/
def isSpace (c : Char) : Bool :=
  c = ' ' || c = '\t' || c = '\n' || c = '\r' || c = '\x0b' || c = '\x0c'

/-- ASCII model of the Python regex class `\w` (word character). -/
def isWordChar (c : Char) : Bool :=
  ('a' ≤ c && c ≤ 'z') || ('A' ≤ c && c ≤ 'Z') || ('0' ≤ c && c ≤ '9') || c = '_'

/-- `sub in s` for Python strings: `sub` occurs contiguously in `s`. -/
def strContains (s sub : String) : Bool :=
  decide (sub.data <:+: s.data)

/-- Python `s.endswith(suffix)`. -/
def strEndsWith (s suffix : String) : Bool :=
  decide (suffix.data <:+ s.data)

/-- Python `s.strip()` restricted to the `\s` class: drop leading and
trailing whitespace. -/
def strip (s : String) : String :=
  String.mk ((s.data.dropWhile isSpace).reverse.dropWhile isSpace |>.reverse)

/-- Worker for `collapseSpaces`: `prevSpace` records whether the
previous character belonged to a whitespace run already emitted as a
single space. -/
def collapseAux (prevSpace : Bool) : List Char → List Char
  | [] => []
  | c :: cs =>
    if isSpace c then
      if prevSpace then collapseAux true cs else ' ' :: collapseAux true cs
    else
      c :: collapseAux false cs

/-- Replace every maximal nonempty run of whitespace by a single space
(the effect of `re.sub(r'\s+', ' ', s)`). -/
def collapseSpaces (l : List Char) : List Char :=
  collapseAux false l

/-- Python `dict` update `d[k] = v` on an association-list model of a
dict: replace the value in place if the key is present (Python dicts keep
insertion order on update), otherwise append the new binding. -/
def dictSet {α : Type} (d : List (String × α)) (k : String) (v : α) : List (String × α) :=
  if (d.lookup k).isSome then
    d.map (fun p => if p.1 = k then (k, v) else p)
  else
    d ++ [(k, v)]

/-- Python `k in d` on the association-list model of a dict. -/
def dictHas {α : Type} (d : List (String × α)) (k : String) : Bool :=
  (d.lookup k).isSome

end Py

namespace ContentOptimizer

/-
Embedding of `src/modules/utils/content_optimizer.py` (class
`ContentOptimizer`): the mutable attribute `processed_content_hashes` is
the explicit state threaded through `is_redundant`; Python `hash` of the
normalized string is modelled collision-freely by the normalized string
itself, so the seen-set is a set of normalized strings.
-/

/-- `ContentOptimizer._normalize_content`: lowercase, collapse whitespace
runs to single spaces, remove every character outside `\w` and `\s`,
then strip. -/
def normalize_content (content : String) : String :=
  let lowered := (Py.lower content).data
  let collapsed := Py.collapseSpaces lowered
  let stripped := collapsed.filter (fun c => Py.isWordChar c || Py.isSpace c)
  Py.strip (String.mk stripped)

/-- `ContentOptimizer.is_redundant`: contents that are empty or shorter
than 50 characters are immediately redundant; otherwise membership of the
normalized content in the seen-set decides, and a first occurrence is
inserted.  Returns the Python return value paired with the updated
seen-set. -/
def is_redundant (seen : List String) (content : String) : Bool × List String :=
  if content = "" || content.length < 50 then
    (true, seen)
  else
    if normalize_content content ∈ seen then
      (true, seen)
    else
      (false, normalize_content content :: seen)

/-- The value of the `academic_sources` key of a collected-data dict,
when present. -/
structure AcademicSources where
  arxiv_papers : List String
  doi_papers : List String
  academic_pdfs : List String
  statistics_sources : List String
deriving Repr, DecidableEq

/-- One value of the `research_results` dict: either not a dict at all,
or a dict that may carry a `content` string. -/
inductive ResearchResult
  | notDict
  | dict (content : Option String)
deriving Repr, DecidableEq

/-- The slice of a collected-data dict read by `has_sufficient_research`:
the optional `academic_sources` entry and the `research_results` mapping
(an absent `research_results` key behaves as the empty dict, so it is
modelled directly as a list of entries). -/
structure CollectedData where
  academic_sources : Option AcademicSources
  research_results : List (String × ResearchResult)
deriving Repr, DecidableEq

/-- Combined academic source count used by the first gate. -/
def academicCount (cd : CollectedData) : Nat :=
  match cd.academic_sources with
  | none => 0
  | some a => a.arxiv_papers.length + a.doi_papers.length + a.academic_pdfs.length

/-- Statistics source count used by the second gate. -/
def statsCount (cd : CollectedData) : Nat :=
  match cd.academic_sources with
  | none => 0
  | some a => a.statistics_sources.length

/-- Whether one `research_results` entry counts toward the content gate:
a dict value with a `content` entry of at least 500 characters. -/
def hasLongContent (r : ResearchResult) : Bool :=
  match r with
  | .dict (some c) => 500 ≤ c.length
  | _ => false

/-- Number of `research_results` entries with at least 500 characters of
content. -/
def contentCount (cd : CollectedData) : Nat :=
  (cd.research_results.filter (fun p => hasLongContent p.2)).length

/-- `ContentOptimizer.has_sufficient_research`, with the early returns of
the Python code. -/
def has_sufficient_research (cd : CollectedData) : Bool :=
  let academic_sources := academicCount cd
  if academic_sources < 3 then false
  else
    let stats_sources := statsCount cd
    if stats_sources < 2 then false
    else
      if cd.research_results.length < 3 then false
      else
        decide (3 ≤ contentCount cd)

end ContentOptimizer

/-
Embedding of `src/modules/utils/citation.py`.

`datetime.datetime.strptime` is modelled by per-format parsers that follow
CPython's `_strptime` regexes: `%Y` is exactly four digits, `%m` matches
`1[0-2]|0[1-9]|[1-9]`, `%d` matches `3[01]|[12]\d|0[1-9]|[1-9]` (with
regex-order backtracking realised by candidate lists), `%B` matches a full
month name case-insensitively, and whitespace in the format matches one or
more whitespace characters; the matched fields are then validated exactly
as `datetime.date` construction does (year at least 1, day no larger than
the month length).  A successfully parsed date is a `Date` record, and
`(today - pub_date).days` is the difference of proleptic-Gregorian
ordinals.
-/

/-- A parsed calendar date (`datetime.date`). -/
structure Date where
  year : Nat
  month : Nat
  day : Nat
deriving Repr, DecidableEq

namespace Date

/-- Gregorian leap-year rule. -/
def isLeap (y : Nat) : Bool :=
  y % 4 == 0 && (y % 100 != 0 || y % 400 == 0)

/-- Length of month `m` of year `y` (months are 1-based). -/
def daysInMonth (y m : Nat) : Nat :=
  if m = 2 then (if isLeap y then 29 else 28)
  else if m = 4 || m = 6 || m = 9 || m = 11 then 30
  else 31

/-- Days in year `y` strictly before month `m`. -/
def daysBeforeMonth (y m : Nat) : Nat :=
  ((List.range (m - 1)).map (fun i => daysInMonth y (i + 1))).sum

/-- `datetime.date.toordinal`: day number in the proleptic Gregorian
calendar, with `0001-01-01` mapped to 1. -/
def toOrdinal (d : Date) : Nat :=
  365 * (d.year - 1) + (d.year - 1) / 4 - (d.year - 1) / 100 + (d.year - 1) / 400
    + daysBeforeMonth d.year d.month + d.day

/-- `(today - pub).days` for dates: signed ordinal difference. -/
def daysOld (pub today : Date) : Int :=
  (toOrdinal today : Int) - (toOrdinal pub : Int)

end Date

namespace Strptime

/-- Numeric value of an ASCII digit, if `c` is one. -/
def digit? (c : Char) : Option Nat :=
  if '0' ≤ c ∧ c ≤ '9' then some (c.toNat - 48) else none

/-- `%Y`: exactly four digits. -/
def parse4 : List Char → Option (Nat × List Char)
  | a :: b :: c :: d :: rest => do
    let x ← digit? a
    let y ← digit? b
    let z ← digit? c
    let w ← digit? d
    pure (((x * 10 + y) * 10 + z) * 10 + w, rest)
  | _ => none

/-- `%m` (`1[0-2]|0[1-9]|[1-9]`): candidate matches in regex alternation
order, so that a failing continuation backtracks to the next candidate. -/
def monthCands (cs : List Char) : List (Nat × List Char) :=
  (match cs with
   | a :: b :: rest =>
     match digit? a, digit? b with
     | some 1, some db => if db ≤ 2 then [(10 + db, rest)] else []
     | some 0, some db => if 1 ≤ db ∧ db ≤ 9 then [(db, rest)] else []
     | _, _ => []
   | _ => []) ++
  (match cs with
   | a :: rest =>
     match digit? a with
     | some d => if 1 ≤ d ∧ d ≤ 9 then [(d, rest)] else []
     | none => []
   | [] => [])

/-- `%d` (`3[01]|[12]\d|0[1-9]|[1-9]`): candidate matches in regex
alternation order. -/
def dayCands (cs : List Char) : List (Nat × List Char) :=
  (match cs with
   | a :: b :: rest =>
     match digit? a, digit? b with
     | some 3, some db => if db ≤ 1 then [(30 + db, rest)] else []
     | some 1, some db => [(10 + db, rest)]
     | some 2, some db => [(20 + db, rest)]
     | some 0, some db => if 1 ≤ db ∧ db ≤ 9 then [(db, rest)] else []
     | _, _ => []
   | _ => []) ++
  (match cs with
   | a :: rest =>
     match digit? a with
     | some d => if 1 ≤ d ∧ d ≤ 9 then [(d, rest)] else []
     | none => []
   | [] => [])

/-- Full English month names with their numbers (the `%B` vocabulary). -/
def monthNames : List (String × Nat) :=
  [("january", 1), ("february", 2), ("march", 3), ("april", 4),
   ("may", 5), ("june", 6), ("july", 7), ("august", 8),
   ("september", 9), ("october", 10), ("november", 11), ("december", 12)]

/-- `%B`: a full month name, matched case-insensitively.  No month name is
a prefix of another, so the match is deterministic. -/
def monthByName (cs : List Char) : Option (Nat × List Char) :=
  let lowered := cs.map Py.lowerChar
  monthNames.findSome? (fun p =>
    if decide (p.1.data <+: lowered) then some (p.2, cs.drop p.1.length) else none)

/-- Whitespace in a `strptime` format string matches one or more
whitespace characters. -/
def spaces1 (cs : List Char) : Option (List Char) :=
  match cs with
  | c :: _ => if Py.isSpace c then some (cs.dropWhile Py.isSpace) else none
  | [] => none

/-- A literal format character. -/
def lit (ch : Char) (cs : List Char) : Option (List Char) :=
  match cs with
  | c :: rest => if c = ch then some rest else none
  | [] => none

/-- The regex match of `"%Y-%m-%d"` / `"%Y/%m/%d"` (separator `sep`)
against the whole string. -/
def matchYMD (sep : Char) (cs : List Char) : Option (Nat × Nat × Nat) := do
  let (y, r1) ← parse4 cs
  let r2 ← lit sep r1
  (monthCands r2).findSome? (fun mc =>
    match lit sep mc.2 with
    | none => none
    | some r4 =>
      (dayCands r4).findSome? (fun dc =>
        if dc.2 = [] then some (y, mc.1, dc.1) else none))

/-- The regex match of `"%B %d, %Y"` against the whole string. -/
def matchBdY (cs : List Char) : Option (Nat × Nat × Nat) := do
  let (m, r1) ← monthByName cs
  let r2 ← spaces1 r1
  (dayCands r2).findSome? (fun dc => do
    let r4 ← lit ',' dc.2
    let r5 ← spaces1 r4
    let (y, r6) ← parse4 r5
    if r6 = [] then some (y, m, dc.1) else none)

/-- The regex match of `"%d %B %Y"` against the whole string. -/
def matchDBY (cs : List Char) : Option (Nat × Nat × Nat) :=
  (dayCands cs).findSome? (fun dc => do
    let r2 ← spaces1 dc.2
    let (m, r3) ← monthByName r2
    let r4 ← spaces1 r3
    let (y, r5) ← parse4 r4
    if r5 = [] then some (y, m, dc.1) else none)

/-- The regex match of `"%Y"` against the whole string (month and day
default to 1). -/
def matchY (cs : List Char) : Option (Nat × Nat × Nat) := do
  let (y, r1) ← parse4 cs
  if r1 = [] then some (y, 1, 1) else none

/-- `datetime.date` construction: rejects year 0 and days beyond the
month length (the regexes already bound month and day from below). -/
def mkValid (t : Nat × Nat × Nat) : Option Date :=
  if 1 ≤ t.1 ∧ t.2.2 ≤ Date.daysInMonth t.1 t.2.1 then
    some ⟨t.1, t.2.1, t.2.2⟩
  else
    none

/-- The format chain of `SourceReference.calculate_scores`: the formats
`"%Y-%m-%d"`, `"%Y/%m/%d"`, `"%B %d, %Y"`, `"%d %B %Y"`, `"%Y"` are tried
in order, and a `ValueError` (no regex match, or an invalid date) moves on
to the next format. -/
def parseDateChain (s : String) : Option Date :=
  [matchYMD '-', matchYMD '/', matchBdY, matchDBY, matchY].findSome?
    (fun f => (f s.data).bind mkValid)

end Strptime

/-- `citation.SourceReference`: constructor defaults as in `__init__`
(scores are floats in tenths, modelled as rationals). -/
structure SourceReference where
  id : String
  title : String
  url : String
  authors : List String := []
  publication_date : Option String := none
  source_type : String := "web"
  publisher : Option String := none
  journal : Option String := none
  doi : Option String := none
  citation_number : Option Nat := none
  relevance_score : ℚ := 1/2
  quality_score : ℚ := 1/2
  recency_score : ℚ := 1/2
  authority_score : ℚ := 1/2
deriving Repr, DecidableEq

namespace SourceReference

/-- Truthiness of an optional string attribute (`None` and `""` are
falsy). -/
def optTruthy (o : Option String) : Bool :=
  match o with
  | none => false
  | some s => s ≠ ""

/-- `SourceReference.calculate_scores`, with the current date passed
explicitly in place of `datetime.date.today()`.  The recency bucket is
updated only when `self.publication_date` is truthy and one of the date
formats parses; the authority chain and the final quality mean follow the
source line by line. -/
def calculate_scores (r : SourceReference) (today : Date) : SourceReference :=
  let r1 :=
    match r.publication_date with
    | none => r
    | some s =>
      if s = "" then r
      else
        match Strptime.parseDateChain s with
        | none => r
        | some pub =>
          let days_old := Date.daysOld pub today
          { r with recency_score :=
              if days_old < 365 then (9 : ℚ)/10
              else if days_old < 365 * 3 then (7 : ℚ)/10
              else if days_old < 365 * 5 then (1 : ℚ)/2
              else (3 : ℚ)/10 }
  let r2 :=
    if r1.source_type = "arxiv" then
      { r1 with authority_score := (4 : ℚ)/5 }
    else if r1.source_type = "journal" && optTruthy r1.journal then
      { r1 with authority_score := (9 : ℚ)/10 }
    else if r1.source_type = "wikipedia" then
      { r1 with authority_score := (3 : ℚ)/5 }
    else if Py.strContains r1.url "github" || Py.strContains r1.url "edu" then
      { r1 with authority_score := (7 : ℚ)/10 }
    else r1
  { r2 with quality_score := (r2.relevance_score + r2.recency_score + r2.authority_score) / 3 }

/-- `self.url.split('/')[-1]`. -/
def lastUrlComponent (url : String) : String :=
  (url.splitOn "/").getLastD ""

/-- The author-joining prefix shared by `_format_apa` (`.` after one
author, `&` between two, `et al.` beyond). -/
def apaAuthors (authors : List String) : String :=
  match authors with
  | [] => ""
  | [a] => a ++ ". "
  | [a, b] => a ++ " & " ++ b ++ ". "
  | a :: _ => a ++ " et al. "

/-- `SourceReference._format_apa`. -/
def format_apa (r : SourceReference) : String :=
  let citt := apaAuthors r.authors
  let citt := citt ++ (match r.publication_date with
    | some d => if d ≠ "" then "(" ++ d ++ "). " else ""
    | none => "")
  let citt := citt ++ r.title ++ ". "
  if r.source_type = "journal" && optTruthy r.journal then
    citt ++ r.journal.getD "" ++
      (match r.doi with
       | some d => if d ≠ "" then ". https://doi.org/" ++ d else ""
       | none => "")
  else if r.source_type = "arxiv" then
    citt ++ "arXiv preprint arXiv:" ++ lastUrlComponent r.url
  else if r.source_type = "book" && optTruthy r.publisher then
    citt ++ r.publisher.getD ""
  else
    citt ++ "Retrieved from " ++ r.url

/-- The date suffix `", <date>"` appended by `_format_mla` and
`_format_ieee` when the publication date is truthy. -/
def dateSuffix (r : SourceReference) : String :=
  match r.publication_date with
  | some d => if d ≠ "" then ", " ++ d else ""
  | none => ""

/-- `SourceReference._format_mla`. -/
def format_mla (r : SourceReference) : String :=
  let citt :=
    match r.authors with
    | [] => ""
    | [a] => a ++ ". "
    | [a, b] => a ++ " and " ++ b ++ ". "
    | a :: _ => a ++ " et al. "
  let citt := citt ++ "\"" ++ r.title ++ ".\" "
  if r.source_type = "journal" && optTruthy r.journal then
    citt ++ r.journal.getD "" ++ dateSuffix r
  else if r.source_type = "arxiv" then
    citt ++ "arXiv" ++ dateSuffix r
  else if r.source_type = "book" && optTruthy r.publisher then
    citt ++ r.publisher.getD "" ++ dateSuffix r
  else
    citt ++ r.url ++ dateSuffix r

/-- `SourceReference._format_ieee`: short-circuits to `[n] ` when a
citation number is assigned. -/
def format_ieee (r : SourceReference) : String :=
  match r.citation_number with
  | some n => "[" ++ toString n ++ "] "
  | none =>
    let citt :=
      match r.authors with
      | [] => ""
      | [a] => a ++ ", "
      | a :: rest =>
        String.join ((a :: rest).dropLast.map (fun x => x ++ ", ")) ++
          "and " ++ (a :: rest).getLastD "" ++ ", "
    let citt := citt ++ "\"" ++ r.title ++ ",\" "
    if r.source_type = "journal" && optTruthy r.journal then
      citt ++ r.journal.getD "" ++ dateSuffix r
    else if r.source_type = "arxiv" then
      citt ++ "arXiv preprint arXiv:" ++ lastUrlComponent r.url
    else if r.source_type = "book" && optTruthy r.publisher then
      citt ++ r.publisher.getD "" ++ dateSuffix r
    else
      citt ++ "Retrieved from " ++ r.url ++ dateSuffix r

/-- `SourceReference.format_citation`: style dispatch (`chicago` and
`harvard` are implemented as APA, and unknown styles fall back to APA). -/
def format_citation (r : SourceReference) (style : String) : String :=
  if style = "apa" then format_apa r
  else if style = "mla" then format_mla r
  else if style = "chicago" then format_apa r
  else if style = "harvard" then format_apa r
  else if style = "ieee" then format_ieee r
  else format_apa r

end SourceReference

/-- `citation.Citation`: the registry state (`references` is the
insertion-ordered url-to-reference dict, `reference_map` maps reference
ids to urls, `citation_counter` starts at 1). -/
structure Citation where
  references : List (String × SourceReference) := []
  reference_map : List (String × String) := []
  style : String := "apa"
  citation_counter : Nat := 1
deriving Repr, DecidableEq

namespace Citation

/-- `Citation.add_reference`: a url not yet in the registry receives the
next citation number and is stored; otherwise nothing changes.  Returns
the updated registry and the Python return value `reference.id`. -/
def add_reference (c : Citation) (reference : SourceReference) : Citation × String :=
  if Py.dictHas c.references reference.url then
    (c, reference.id)
  else
    let reference := { reference with citation_number := some c.citation_counter }
    ({ c with
        references := Py.dictSet c.references reference.url reference,
        reference_map := Py.dictSet c.reference_map reference.id reference.url,
        citation_counter := c.citation_counter + 1 },
      reference.id)

/-- The sort key of `generate_references_section`:
`r.citation_number if r.citation_number is not None else 999`. -/
def sortKey (r : SourceReference) : Nat :=
  r.citation_number.getD 999

/-- The `sorted(self.references.values(), key=...)` list of
`generate_references_section` (Python `sorted` is a stable merge sort). -/
def sortedReferences (c : Citation) : List SourceReference :=
  (c.references.map Prod.snd).mergeSort (fun a b => sortKey a ≤ sortKey b)

/-- `Citation.generate_references_section`: the formatted listing in
sorted order (`"No references found."` when the registry is empty). -/
def generate_references_section (c : Citation) : String :=
  if c.references = [] then "No references found."
  else
    String.join ((sortedReferences c).map (fun r =>
      (match r.citation_number with
       | some n => "[" ++ toString n ++ "] "
       | none => "") ++
      SourceReference.format_citation r c.style ++ "\n\n"))

end Citation

namespace MD5

/-
Implementation of the MD5 digest used by
`ArticleStorage._hash_url` (`hashlib.md5(url.encode()).hexdigest()`),
over lists of byte values (`Nat` below 256).  `url.encode()` is modelled
as the code points of the string, which agrees with UTF-8 for the ASCII
urls this cache receives.
-/

/-- 2^32, the word modulus. -/
def M32 : Nat := 4294967296

/-- Bitwise complement on a 32-bit word. -/
def bnot (x : Nat) : Nat := Nat.xor x 4294967295

/-- Left rotation of a 32-bit word by `s` places. -/
def rotl (x s : Nat) : Nat :=
  Nat.lor ((x <<< s) % M32) (x >>> (32 - s))

/-- The per-round sine-derived constants `K[i] = floor(|sin(i+1)| * 2^32)`. -/
def K : List Nat :=
  [3614090360, 3905402710, 606105819, 3250441966, 4118548399, 1200080426,
   2821735955, 4249261313, 1770035416, 2336552879, 4294925233, 2304563134,
   1804603682, 4254626195, 2792965006, 1236535329, 4129170786, 3225465664,
   643717713, 3921069994, 3593408605, 38016083, 3634488961, 3889429448,
   568446438, 3275163606, 4107603335, 1163531501, 2850285829, 4243563512,
   1735328473, 2368359562, 4294588738, 2272392833, 1839030562, 4259657740,
   2763975236, 1272893353, 4139469664, 3200236656, 681279174, 3936430074,
   3572445317, 76029189, 3654602809, 3873151461, 530742520, 3299628645,
   4096336452, 1126891415, 2878612391, 4237533241, 1700485571, 2399980690,
   4293915773, 2240044497, 1873313359, 4264355552, 2734768916, 1309151649,
   4149444226, 3174756917, 718787259, 3951481745]

/-- The per-round left-rotation amounts. -/
def S : List Nat :=
  [7, 12, 17, 22, 7, 12, 17, 22, 7, 12, 17, 22, 7, 12, 17, 22,
   5, 9, 14, 20, 5, 9, 14, 20, 5, 9, 14, 20, 5, 9, 14, 20,
   4, 11, 16, 23, 4, 11, 16, 23, 4, 11, 16, 23, 4, 11, 16, 23,
   6, 10, 15, 21, 6, 10, 15, 21, 6, 10, 15, 21, 6, 10, 15, 21]

/-- Little-endian byte expansion of `n` to `k` bytes. -/
def toLEBytes (n k : Nat) : List Nat :=
  match k with
  | 0 => []
  | k' + 1 => n % 256 :: toLEBytes (n / 256) k'

/-- MD5 padding: a `0x80` byte, zeros to 56 mod 64, then the bit length
as eight little-endian bytes. -/
def pad (msg : List Nat) : List Nat :=
  let len := msg.length
  let zeros := (55 + 64 - (len % 64)) % 64
  msg ++ [128] ++ List.replicate zeros 0 ++ toLEBytes (8 * len % (2 ^ 64)) 8

/-- The sixteen little-endian 32-bit words of one 64-byte block. -/
def words (block : List Nat) : List Nat :=
  (List.range 16).map (fun j =>
    block.getD (4 * j) 0 + 256 * block.getD (4 * j + 1) 0 +
      65536 * block.getD (4 * j + 2) 0 + 16777216 * block.getD (4 * j + 3) 0)

/-- One of the 64 rounds on the state `(a, b, c, d)`. -/
def round (w : List Nat) (st : Nat × Nat × Nat × Nat) (i : Nat) :
    Nat × Nat × Nat × Nat :=
  let (a, b, c, d) := st
  let (f, g) :=
    if i < 16 then (Nat.lor (Nat.land b c) (Nat.land (bnot b) d), i)
    else if i < 32 then (Nat.lor (Nat.land d b) (Nat.land (bnot d) c), (5 * i + 1) % 16)
    else if i < 48 then (Nat.xor b (Nat.xor c d), (3 * i + 5) % 16)
    else (Nat.xor c (Nat.lor b (bnot d)), (7 * i) % 16)
  let f := (f + a + K.getD i 0 + w.getD g 0) % M32
  (d, (b + rotl f (S.getD i 0)) % M32, b, c)

/-- Process one 64-byte block into the running state. -/
def processBlock (st : Nat × Nat × Nat × Nat) (block : List Nat) :
    Nat × Nat × Nat × Nat :=
  let w := words block
  let (a, b, c, d) := (List.range 64).foldl (round w) st
  let (a0, b0, c0, d0) := st
  ((a0 + a) % M32, (b0 + b) % M32, (c0 + c) % M32, (d0 + d) % M32)

/-- Split a byte list into 64-byte blocks (structural recursion on a
fuel bound so that the kernel can evaluate digests). -/
def blocksAux : Nat → List Nat → List (List Nat)
  | 0, _ => []
  | fuel + 1, l => if l = [] then [] else l.take 64 :: blocksAux fuel (l.drop 64)

/-- Split a byte list into 64-byte blocks. -/
def blocks (l : List Nat) : List (List Nat) :=
  blocksAux l.length l

/-- One hexadecimal digit (lowercase, as `hexdigest` produces). -/
def hexDigit (n : Nat) : Char :=
  if n < 10 then Char.ofNat (48 + n) else Char.ofNat (87 + n)

/-- Two-digit lowercase hex form of one byte. -/
def byteHex (b : Nat) : String :=
  String.mk [hexDigit (b / 16), hexDigit (b % 16)]

/-- `hashlib.md5(bytes).hexdigest()`. -/
def md5Hex (msg : List Nat) : String :=
  let init : Nat × Nat × Nat × Nat := (1732584193, 4023233417, 2562383102, 271733878)
  let (a, b, c, d) := (blocks (pad msg)).foldl processBlock init
  String.join (((toLEBytes a 4 ++ toLEBytes b 4 ++ toLEBytes c 4 ++ toLEBytes d 4)).map byteHex)

end MD5

/-- `str.encode()` for the ASCII strings these components handle: the
code points of the characters. -/
def Py.encode (s : String) : List Nat :=
  s.data.map Char.toNat


namespace Py

/-- In-place update of the value stored under `k` (the effect of
`d[k]["field"] = ...` on a nested dict): every binding of `k` has its
value transformed by `f`, other bindings are untouched. -/
def updValue {α : Type} (d : List (String × α)) (k : String) (f : α → α) :
    List (String × α) :=
  d.map (fun p => if p.1 = k then (p.1, f p.2) else p)

end Py

/-
Embedding of `src/modules/utils/article_storage.py`.

The persisted state — the JSON index file and the per-article `.txt`
content blobs — is an explicit `ArticleStorage.State`; each method loads
the index, transforms it and (when it writes) saves it, so the returned
state is the persisted one.  `time.time()` and
`datetime.datetime.now().isoformat()` are explicit `now`/`nowIso`
arguments.
-/

/-- One record of the article index (`article_data` in
`store_article`). -/
structure ArticleData where
  id : String
  url : String
  title : String
  source_type : String
  timestamp : ℚ
  date_added : String
  metadata : List (String × String)
deriving Repr, DecidableEq

/-- The article index file: the `articles` dict plus `last_updated`. -/
structure ArticleIndex where
  articles : List (String × ArticleData)
  last_updated : String
deriving Repr, DecidableEq

namespace ArticleStorage

/-- The persisted storage: the index file and the content blobs keyed by
article id. -/
structure State where
  index : ArticleIndex
  contents : List (String × String)
deriving Repr, DecidableEq

/-- `ArticleStorage._hash_url`: `hashlib.md5(url.encode()).hexdigest()`. -/
def hash_url (url : String) : String :=
  MD5.md5Hex (Py.encode url)

/-- `ArticleStorage.store_article`: writes the content blob under the
url's hash, stores the fresh record in the index, bumps `last_updated`,
saves, and returns the article id. -/
def store_article (st : State) (url title content source_type : String)
    (metadata : List (String × String)) (now : ℚ) (nowIso : String) :
    State × String :=
  let article_id := hash_url url
  let article_data : ArticleData :=
    { id := article_id, url := url, title := title, source_type := source_type,
      timestamp := now, date_added := nowIso, metadata := metadata }
  let contents := Py.dictSet st.contents article_id content
  let index := st.index
  let index : ArticleIndex :=
    { articles := Py.dictSet index.articles article_id article_data,
      last_updated := nowIso }
  ({ index := index, contents := contents }, article_id)

/-- `ArticleStorage.add_summary_to_article`: an unknown id returns
`False` without saving; a known id gets `summary` and `summary_date`
added to its metadata, the index is saved, and `True` is returned. -/
def add_summary_to_article (st : State) (article_id summary : String)
    (nowIso : String) : State × Bool :=
  let index := st.index
  if (index.articles.lookup article_id).isSome then
    let articles := Py.updValue index.articles article_id (fun a =>
      { a with metadata :=
          (Py.dictSet (Py.dictSet a.metadata "summary" summary)
            "summary_date" nowIso) })
    ({ st with index := { index with articles := articles } }, true)
  else
    (st, false)

/-- The structural invariant of indexes built by `store_article`: keys
are distinct and every record sits under the hash of its url. -/
def WellFormed (st : State) : Prop :=
  (st.index.articles.map Prod.fst).Nodup ∧
    ∀ p ∈ st.index.articles, p.1 = hash_url p.2.url

end ArticleStorage

/-
Embedding of `src/modules/utils/rate_limiter.py` (class
`RateLimitHandler`).

`time.time()` readings are explicit rational arguments.  `wait_if_needed`
reads the clock once inside `should_wait` (argument `tCheck`) and once
inside `update_last_call` after the optional sleep (argument `tStamp`);
the semantics of `asyncio.sleep` and clock monotonicity are the
hypothesis `tCheck + should_wait st service tCheck ≤ tStamp` of the
theorems below (the sleep lasts at least the requested wait, and time
never runs backwards).
-/

namespace RateLimitHandler

/-- The mutable per-service state of `RateLimitHandler` (`max_retries`
and `retry_delay` are constructor constants irrelevant to timing). -/
structure State where
  service_last_call : List (String × ℚ)
  service_min_interval : List (String × ℚ)
deriving Repr, DecidableEq

/-- The constructor's `service_last_call` table (all zero). -/
def initLastCall : List (String × ℚ) :=
  [("google_cse", 0), ("openverse", 0), ("gemini", 0), ("duckduckgo", 0),
   ("wikipedia", 0), ("unsplash", 0), ("arxiv", 0), ("brave", 0)]

/-- The constructor's `service_min_interval` table. -/
def initMinInterval : List (String × ℚ) :=
  [("google_cse", 1), ("openverse", 1), ("gemini", 1/5), ("duckduckgo", 2),
   ("wikipedia", 1/2), ("unsplash", 3/2), ("arxiv", 3), ("brave", 3)]

/-- The freshly constructed handler. -/
def initState : State :=
  { service_last_call := initLastCall, service_min_interval := initMinInterval }

/-- `RateLimitHandler.should_wait` at clock reading `now`: the residual
wait before `service` may be called again (`dict.get` defaults to 0). -/
def should_wait (st : State) (service : String) (now : ℚ) : ℚ :=
  let last_call := (st.service_last_call.lookup service).getD 0
  let min_interval := (st.service_min_interval.lookup service).getD 0
  if now - last_call < min_interval then min_interval - (now - last_call) else 0

/-- `RateLimitHandler.update_last_call` at clock reading `now`. -/
def update_last_call (st : State) (service : String) (now : ℚ) : State :=
  { st with service_last_call := Py.dictSet st.service_last_call service now }

/-- `RateLimitHandler.wait_if_needed`: after the optional sleep the last
call is stamped with the later clock reading `tStamp`. -/
def wait_if_needed (st : State) (service : String) (tStamp : ℚ) : State :=
  update_last_call st service tStamp

end RateLimitHandler

/-
Embedding of `src/modules/core/url_tracking.py`.

`setup_tracking_for_scraper` wraps the scraper's `scrape_url`; the wrapped
call is modelled by `tracked_scrape_url`, whose `result` argument is the
outcome of the original scrape (`none` for a raised exception, `some`
content otherwise; the empty string is falsy and counts as a failure).
The `research_data`/`save_callback`/`buffer` side effects carry no
tracking state and are omitted.
-/

namespace URLTracker

/-- The `url_tracking` dict of counters. -/
structure Tracking where
  total_urls_scraped : Nat
  total_urls_tracked : Nat
  wikipedia_count : Nat
  arxiv_count : Nat
  academic_pdf_count : Nat
  news_count : Nat
  stats_sources_count : Nat
  doi_papers_count : Nat
  web_page_count : Nat
  failed_scrapes : Nat
  arxiv_papers_count : Nat
  url_sources : List (String × Nat)
  last_updated : ℚ
deriving Repr, DecidableEq

/-- `URLTracker.reset_tracking` at clock reading `now`. -/
def reset_tracking (now : ℚ) : Tracking :=
  { total_urls_scraped := 0, total_urls_tracked := 0, wikipedia_count := 0,
    arxiv_count := 0, academic_pdf_count := 0, news_count := 0,
    stats_sources_count := 0, doi_papers_count := 0, web_page_count := 0,
    failed_scrapes := 0, arxiv_papers_count := 0, url_sources := [],
    last_updated := now }

/-- The news-domain substrings of `_classify_and_count_url`. -/
def newsDomains : List String :=
  ["news", "cnbc", "bbc", "reuters", "cnn", "nytimes",
   "washingtonpost", "guardian", "aljazeera", "npr"]

/-- The statistics-domain substrings of `_classify_and_count_url`. -/
def statDomains : List String :=
  ["statista", "worldbank", "data.gov", "ourworldindata",
   "census.gov", "bls.gov", "oecd.org"]

/-- The academic-domain substrings of `_classify_and_count_url`. -/
def academicDomains : List String :=
  ["edu", "ac.uk", "researchgate", "springer", "sciencedirect",
   "jstor", "ieee", "mdpi", "ncbi", "scielo", "ssrn"]

/-- One `if cond: counter += 1; tracked = True` block of
`_classify_and_count_url`, acting on the pair of the tracking dict and
the `tracked` flag. -/
def rule_step (p : Tracking × Bool) (cond : Bool) (upd : Tracking → Tracking) :
    Tracking × Bool :=
  if cond then (upd p.1, true) else p

/-- `URLTracker._classify_and_count_url`: the seven non-exclusive
category rules in source order, each incrementing its counter and
marking the url as tracked; an url no rule matched increments
`web_page_count`. -/
def classify_and_count_url (t : Tracking) (url : String) : Tracking :=
  let url_lower := Py.lower url
  let p : Tracking × Bool := (t, false)
  let p := rule_step p (Py.strContains url_lower "wikipedia.org")
    (fun t => { t with wikipedia_count := t.wikipedia_count + 1 })
  let p := rule_step p (newsDomains.any fun d => Py.strContains url_lower d)
    (fun t => { t with news_count := t.news_count + 1 })
  let p := rule_step p (Py.strContains url_lower "arxiv.org")
    (fun t => { t with arxiv_count := t.arxiv_count + 1 })
  let p := rule_step p (statDomains.any fun d => Py.strContains url_lower d)
    (fun t => { t with stats_sources_count := t.stats_sources_count + 1 })
  let p := rule_step p (Py.strEndsWith url_lower ".pdf")
    (fun t => { t with academic_pdf_count := t.academic_pdf_count + 1 })
  let p := rule_step p
    (Py.strContains url_lower "doi.org" || Py.strContains url_lower "/doi/")
    (fun t => { t with doi_papers_count := t.doi_papers_count + 1 })
  let p := rule_step p (academicDomains.any fun d => Py.strContains url_lower d)
    (fun t => { t with academic_pdf_count := t.academic_pdf_count + 1 })
  if p.2 then p.1 else { p.1 with web_page_count := p.1.web_page_count + 1 }

/-- Whether at least one of the seven category rules matches the
lowercased url (the final value of the `tracked` flag). -/
def anyRuleMatches (url : String) : Bool :=
  let url_lower := Py.lower url
  Py.strContains url_lower "wikipedia.org" ||
    newsDomains.any (fun d => Py.strContains url_lower d) ||
    Py.strContains url_lower "arxiv.org" ||
    statDomains.any (fun d => Py.strContains url_lower d) ||
    Py.strEndsWith url_lower ".pdf" ||
    Py.strContains url_lower "doi.org" || Py.strContains url_lower "/doi/" ||
    academicDomains.any (fun d => Py.strContains url_lower d)

/-- `urlparse(url).netloc` for the scheme-carrying urls the scraper
receives: the text between the first `"://"` and the following `/`, `?`
or `#` (empty when the url carries no `"://"`).  Only the `url_sources`
histogram depends on this, and the source guards it with a bare
`try/except`. -/
def netloc (url : String) : String :=
  match url.splitOn "://" with
  | [] => ""
  | [_] => ""
  | _ :: rest =>
    let after := String.intercalate "://" rest
    String.mk (after.data.takeWhile (fun c => c ≠ '/' && c ≠ '?' && c ≠ '#'))

/-- The wrapped `scrape_url` installed by `setup_tracking_for_scraper`:
bumps the totals and the domain histogram, then classifies on truthy
content and counts a failed scrape on falsy content or an exception. -/
def tracked_scrape_url (t : Tracking) (url : String) (result : Option String) :
    Tracking :=
  let t := { t with
    total_urls_tracked := t.total_urls_tracked + 1,
    total_urls_scraped := t.total_urls_scraped + 1 }
  let domain := netloc url
  let t := { t with
    url_sources := Py.dictSet t.url_sources domain
      ((t.url_sources.lookup domain).getD 0 + 1) }
  match result with
  | some content =>
    if content ≠ "" then classify_and_count_url t url
    else { t with failed_scrapes := t.failed_scrapes + 1 }
  | none => { t with failed_scrapes := t.failed_scrapes + 1 }

/-- Whether a scrape outcome is a success that matches no category rule
(the exact condition under which `web_page_count` is bumped). -/
def isUntrackedSuccess (ev : String × Option String) : Bool :=
  match ev.2 with
  | some content => content ≠ "" && !anyRuleMatches ev.1
  | none => false

end URLTracker

/-
Embedding of the top-level exception handling of
`OrcaStatLLMScientist.generate_research_paper`
(`src/modules/researcher.py`, final `except Exception` block) together
with `log_exception` from `src/modules/utils/error_handler.py`.

Only the `research_data` fields the handler touches are modelled: the
`status` string and the optional `errors` list.  The whole `try` body is
abstracted as its outcome: either a normal return with the session data
it produced, or an escaped exception together with the session data at
that moment (`str(e)` and the formatted traceback).
-/

namespace Researcher

/-- One entry of `research_data["errors"]` as appended by
`log_exception`. -/
structure ErrorEntry where
  timestamp : String
  message : String
  error : String
  traceback : String
deriving Repr, DecidableEq

/-- The slice of `research_data` the top-level handler reads and writes:
`status`, and the `errors` list (`none` models an absent key). -/
structure ResearchData where
  status : String
  errors : Option (List ErrorEntry)
deriving Repr, DecidableEq

/-- `error_handler.log_exception` restricted to its `research_data`
effect: ensure the `errors` key exists, append an entry carrying the
stack trace, and persist via `save_callback` (the returned value is the
persisted state). -/
def log_exception (rd : ResearchData) (message eStr tbStr nowIso : String) :
    ResearchData :=
  { rd with errors :=
      (some ((rd.errors.getD []) ++
        [{ timestamp := nowIso, message := message, error := eStr,
           traceback := tbStr }])) }

/-- The outcome of the `try` body of `generate_research_paper`: a normal
return, or an exception escaping an orchestrator step with the session
data as it stood. -/
inductive PipelineOutcome where
  | ok (rd : ResearchData) (markdown_file : String)
  | raised (rd : ResearchData) (eStr tbStr : String)
deriving Repr, DecidableEq

/-- The top-level `try/except` of `generate_research_paper`: an escaped
exception is logged via `log_exception` and the coroutine returns `""`
instead of propagating. -/
def generate_research_paper (outcome : PipelineOutcome) (nowIso : String) :
    ResearchData × String :=
  match outcome with
  | .ok rd markdown_file => (rd, markdown_file)
  | .raised rd eStr tbStr =>
    (log_exception rd "Error in research paper generation" eStr tbStr nowIso, "")

end Researcher

/-! ## Library lemmas about the dict model -/

namespace Py

theorem lookup_map_replace {α : Type} (d : List (String × α)) (k : String) (v : α) :
    ((d.map fun p => if p.1 = k then (k, v) else p).lookup k) =
      if (d.lookup k).isSome then some v else none := by
  induction d with
  | nil => simp
  | cons p rest ih =>
    obtain ⟨a, b⟩ := p
    by_cases hp : a = k
    · subst hp
      simp only [List.map_cons]
      rw [if_pos trivial]
      simp [List.lookup_cons, beq_self_eq_true]
    · have hk : (k == a) = false := beq_eq_false_iff_ne.mpr (fun e => hp e.symm)
      simp only [List.map_cons, if_neg hp, List.lookup_cons, hk]
      exact ih

theorem lookup_map_replace_ne {α : Type} (d : List (String × α)) (k k' : String)
    (v : α) (h : k' ≠ k) :
    ((d.map fun p => if p.1 = k then (k, v) else p).lookup k') = d.lookup k' := by
  induction d with
  | nil => simp
  | cons p rest ih =>
    obtain ⟨a, b⟩ := p
    by_cases hp : a = k
    · subst hp
      have hk : (k' == a) = false := beq_eq_false_iff_ne.mpr h
      simp only [List.map_cons, List.lookup_cons, hk]
      rw [if_pos trivial]
      simp only [List.lookup_cons, hk]
      exact ih
    · rcases hq : (k' == a) with _ | _
      · simp only [List.map_cons, if_neg hp, List.lookup_cons, hq]
        exact ih
      · simp only [List.map_cons, if_neg hp, List.lookup_cons, hq]

theorem lookup_dictSet_self {α : Type} (d : List (String × α)) (k : String) (v : α) :
    (dictSet d k v).lookup k = some v := by
  unfold dictSet
  split
  · rename_i h
    rw [lookup_map_replace]
    simp only [h, if_pos]
  · rw [List.lookup_append]
    rename_i h
    rcases he : d.lookup k with _ | w
    · simp [he, List.lookup_cons, beq_self_eq_true]
    · exact absurd (by simp [he]) h

theorem lookup_dictSet_ne {α : Type} (d : List (String × α)) (k k' : String)
    (v : α) (h : k' ≠ k) : (dictSet d k v).lookup k' = d.lookup k' := by
  unfold dictSet
  split
  · exact lookup_map_replace_ne d k k' v h
  · rw [List.lookup_append]
    have hk : (k' == k) = false := beq_eq_false_iff_ne.mpr h
    have hsing : List.lookup k' [(k, v)] = none := by
      simp only [List.lookup_cons, hk, List.lookup_nil]
    rw [hsing]
    cases d.lookup k' <;> rfl

theorem mem_dictSet {α : Type} {d : List (String × α)} {k : String} {v : α}
    {p : String × α} (hp : p ∈ dictSet d k v) :
    p = (k, v) ∨ (p ∈ d ∧ p.1 ≠ k) := by
  unfold dictSet at hp
  split at hp
  · obtain ⟨q, hq, hmap⟩ := List.mem_map.mp hp
    by_cases h : q.1 = k
    · left
      rw [if_pos h] at hmap
      exact hmap.symm
    · right
      rw [if_neg h] at hmap
      exact hmap ▸ ⟨hq, h⟩
  · rename_i hnone
    have hnone' : d.lookup k = none := by
      cases he : d.lookup k with
      | none => rfl
      | some w => exact absurd (by simp [he]) hnone
    rcases List.mem_append.mp hp with h | h
    · right
      refine ⟨h, fun e => ?_⟩
      have := List.lookup_eq_none_iff.mp hnone' p h
      simp [e] at this
    · left
      simpa using h

theorem keys_dictSet {α : Type} (d : List (String × α)) (k : String) (v : α)
    (h : (d.lookup k).isSome) :
    (dictSet d k v).map Prod.fst = d.map Prod.fst := by
  unfold dictSet
  rw [if_pos h, List.map_map]
  refine List.map_congr_left fun p _ => ?_
  by_cases hp : p.1 = k <;> simp [hp]

theorem keys_nodup_dictSet {α : Type} {d : List (String × α)} (k : String) (v : α)
    (h : (d.map Prod.fst).Nodup) : ((dictSet d k v).map Prod.fst).Nodup := by
  by_cases hs : (d.lookup k).isSome
  · rwa [keys_dictSet d k v hs]
  · unfold dictSet
    rw [if_neg hs]
    have hnone : d.lookup k = none := by
      cases he : d.lookup k with
      | none => rfl
      | some w => exact absurd (by simp [he]) hs
    have hk : k ∉ d.map Prod.fst := by
      intro hmem
      obtain ⟨p, hp, hpk⟩ := List.mem_map.mp hmem
      have := List.lookup_eq_none_iff.mp hnone p hp
      simp [hpk] at this
    rw [List.map_append]
    refine List.Nodup.append h (by simp) ?_
    intro a ha hb
    simp only [List.map_cons, List.map_nil, List.mem_singleton] at hb
    exact hk (hb ▸ ha)

theorem lookup_updValue_self {α : Type} (d : List (String × α)) (k : String)
    (f : α → α) : (updValue d k f).lookup k = (d.lookup k).map f := by
  induction d with
  | nil => simp [updValue]
  | cons p rest ih =>
    obtain ⟨a, b⟩ := p
    by_cases hp : a = k
    · subst hp
      simp only [updValue, List.map_cons]
      rw [if_pos trivial]
      simp [List.lookup_cons, beq_self_eq_true]
    · have hk : (k == a) = false := beq_eq_false_iff_ne.mpr (fun e => hp e.symm)
      simp only [updValue, List.map_cons, if_neg hp, List.lookup_cons, hk]
      exact ih

theorem lookup_updValue_ne {α : Type} (d : List (String × α)) (k k' : String)
    (f : α → α) (h : k' ≠ k) : (updValue d k f).lookup k' = d.lookup k' := by
  induction d with
  | nil => simp [updValue]
  | cons p rest ih =>
    obtain ⟨a, b⟩ := p
    by_cases hp : a = k
    · subst hp
      have hk : (k' == a) = false := beq_eq_false_iff_ne.mpr h
      simp only [updValue, List.map_cons, List.lookup_cons, hk]
      rw [if_pos trivial]
      simp only [List.lookup_cons, hk]
      exact ih
    · rcases hq : (k' == a) with _ | _
      · simp only [updValue, List.map_cons, if_neg hp, List.lookup_cons, hq]
        exact ih
      · simp only [updValue, List.map_cons, if_neg hp, List.lookup_cons, hq]

theorem length_dictSet_of_fresh {α : Type} (d : List (String × α)) (k : String)
    (v : α) (h : d.lookup k = none) : (dictSet d k v).length = d.length + 1 := by
  unfold dictSet
  simp [h]

end Py

/-! ## Claim theorems -/

/-- C2: `has_sufficient_research` returns true iff all four gates hold
simultaneously — at least 3 combined arXiv/DOI/PDF academic sources, at
least 2 statistics sources, at least 3 subtopic sections present, and at
least 3 sections with at least 500 characters of content; it returns
false as soon as any single gate fails. -/
theorem has_sufficient_research_iff_four_gates (cd : ContentOptimizer.CollectedData) :
    ContentOptimizer.has_sufficient_research cd = true ↔
      3 ≤ ContentOptimizer.academicCount cd ∧
      2 ≤ ContentOptimizer.statsCount cd ∧
      3 ≤ cd.research_results.length ∧
      3 ≤ ContentOptimizer.contentCount cd := by
  unfold ContentOptimizer.has_sufficient_research
  split_ifs <;> simp [decide_eq_true_iff] <;> omega

/-- C1 counterexample: when an exception escapes the pipeline with the
session in status `researching`, the top-level handler appends the trace
to the error log and returns `""`, but the session status stays
`researching` — it is never set to `error`. -/
theorem generate_research_paper_status_stays_researching :
    Researcher.generate_research_paper
        (.raised { status := "researching", errors := none } "boom" "Traceback text")
        "2026-10-12T00:00:00" =
      ({ status := "researching",
         errors := some [{ timestamp := "2026-10-12T00:00:00",
                           message := "Error in research paper generation",
                           error := "boom", traceback := "Traceback text" }] }, "") ∧
      "researching" ≠ "error" := by
  exact ⟨rfl, by decide⟩

/-- C1 (amended): an uncaught exception escaping an orchestrator step is
caught at the top level of `generate_research_paper`, an entry carrying
the stack trace is appended to the session's error log, and the
coroutine returns `""` normally instead of terminating the process — but
the session status is left unchanged (in particular it is not set to
`error`). -/
theorem generate_research_paper_catches_logs_returns (rd : Researcher.ResearchData)
    (eStr tbStr nowIso : String) :
    Researcher.generate_research_paper (.raised rd eStr tbStr) nowIso =
      ({ status := rd.status,
         errors := (some ((rd.errors.getD []) ++
           [{ timestamp := nowIso, message := "Error in research paper generation",
              error := eStr, traceback := tbStr }])) }, "") := by
  rfl

/-- C6 counterexample: a first call of `is_redundant` on a content
string shorter than 50 characters returns `true`, not `false` — the
claim's "first call returns false for every content string" fails. -/
theorem is_redundant_first_call_short_returns_true :
    ContentOptimizer.is_redundant [] "short" = (true, []) := by
  decide

/-- C6 (amended): for every content string of at least 50 characters
whose normalized form is not yet in the seen-set, the first call of
`is_redundant` returns false and records the normalized form; any later
call — in any state that still holds that normalized form, which calls
only ever extend — on the same content or on any content with the same
normalized (lowercased, whitespace-collapsed, punctuation-stripped) form
returns true.  Contents shorter than 50 characters return true on every
call, including the first. -/
theorem is_redundant_false_once_then_true (seen : List String) (content : String)
    (hlen : 50 ≤ content.length)
    (hnew : ContentOptimizer.normalize_content content ∉ seen) :
    (ContentOptimizer.is_redundant seen content).1 = false ∧
    ContentOptimizer.normalize_content content ∈
      (ContentOptimizer.is_redundant seen content).2 ∧
    (∀ (seen' : List String) (c' : String),
      ContentOptimizer.normalize_content content ∈ seen' →
      ContentOptimizer.normalize_content c' = ContentOptimizer.normalize_content content →
      (ContentOptimizer.is_redundant seen' c').1 = true) ∧
    (∀ (s : List String) (c x : String), x ∈ s →
      x ∈ (ContentOptimizer.is_redundant s c).2) := by
  have hne : ¬(content = "" || content.length < 50) = true := by
    simp only [Bool.or_eq_true, decide_eq_true_iff, not_or]
    exact ⟨fun e => by simp [e] at hlen, by omega⟩
  refine ⟨?_, ?_, ?_, ?_⟩
  · simp only [ContentOptimizer.is_redundant, if_neg hne, if_neg hnew]
  · simp only [ContentOptimizer.is_redundant, if_neg hne, if_neg hnew]
    exact List.mem_cons_self _ _
  · intro seen' c' hmem heq
    unfold ContentOptimizer.is_redundant
    split_ifs with h1 h2
    · rfl
    · rfl
    · exact absurd (heq ▸ hmem) h2
  · intro s c x hx
    unfold ContentOptimizer.is_redundant
    split_ifs <;> first | exact hx | exact List.mem_cons_of_mem _ hx

/-- C6 witness: the amended theorem at a concrete 74-character content
and the empty seen-set. -/
theorem is_redundant_false_once_then_true_witness :
    (ContentOptimizer.is_redundant []
      "this is a sufficiently long example content string, over fifty characters").1 =
      false :=
  (is_redundant_false_once_then_true []
    "this is a sufficiently long example content string, over fifty characters"
    (by decide) (by simp)).1

/-- `add_reference` on an already-registered url returns the registry
unchanged (the `if reference.url not in self.references` guard fails). -/
theorem add_reference_of_present (c : Citation) (ref : SourceReference)
    (h : Py.dictHas c.references ref.url = true) :
    Citation.add_reference c ref = (c, ref.id) := by
  unfold Citation.add_reference
  simp [h]

/-- C3: `add_reference` is idempotent per url — the first add of a
reference with a fresh url stores it under the next citation number and
bumps the counter and the registry size; any subsequent add of a
reference with the same url leaves the whole registry state (size,
stored reference, citation number) unchanged. -/
theorem add_reference_idempotent_per_url (c : Citation) (r r' : SourceReference)
    (hfresh : c.references.lookup r.url = none) (hurl : r'.url = r.url) :
    (Citation.add_reference c r).1.references.lookup r.url =
        some { r with citation_number := some c.citation_counter } ∧
    (Citation.add_reference c r).1.citation_counter = c.citation_counter + 1 ∧
    (Citation.add_reference c r).1.references.length = c.references.length + 1 ∧
    (Citation.add_reference (Citation.add_reference c r).1 r').1 =
      (Citation.add_reference c r).1 := by
  have hnot : Py.dictHas c.references r.url = false := by
    simp [Py.dictHas, hfresh]
  have hfirst : (Citation.add_reference c r).1 =
      { c with
        references := Py.dictSet c.references r.url
          { r with citation_number := some c.citation_counter },
        reference_map := Py.dictSet c.reference_map r.id r.url,
        citation_counter := c.citation_counter + 1 } := by
    unfold Citation.add_reference
    rw [hnot]
    rfl
  refine ⟨?_, ?_, ?_, ?_⟩
  · rw [hfirst]
    exact Py.lookup_dictSet_self _ _ _
  · rw [hfirst]
  · rw [hfirst]
    exact Py.length_dictSet_of_fresh _ _ _ hfresh
  · have hhas : Py.dictHas (Citation.add_reference c r).1.references r'.url = true := by
      rw [hfirst, hurl]
      simp [Py.dictHas, Py.lookup_dictSet_self]
    rw [add_reference_of_present _ _ hhas]

/-- C3 witness: the idempotence theorem at a concrete registry and
reference — the second add of url `"http://example.com"` leaves the
registry produced by the first add unchanged. -/
theorem add_reference_idempotent_per_url_witness :
    (Citation.add_reference
        (Citation.add_reference ⟨[], [], "apa", 1⟩
          { id := "id-1", title := "T", url := "http://example.com" }).1
        { id := "id-2", title := "T2", url := "http://example.com" }).1 =
      (Citation.add_reference ⟨[], [], "apa", 1⟩
        { id := "id-1", title := "T", url := "http://example.com" }).1 :=
  (add_reference_idempotent_per_url ⟨[], [], "apa", 1⟩
    { id := "id-1", title := "T", url := "http://example.com" }
    { id := "id-2", title := "T2", url := "http://example.com" }
    rfl rfl).2.2.2

/-- C5: two sequential `wait_if_needed(service)` calls stamp last-call
timestamps at least `min_interval(service)` apart.  `tC1`/`tS1` are the
clock readings of the first call's check and stamp, `tC2`/`tS2` those of
the second; the hypotheses say that the stamp happens no earlier than
the check plus the slept `should_wait` (the `asyncio.sleep` contract and
clock monotonicity) and that the second call starts only after the first
completed. -/
theorem wait_if_needed_sequential_gap (st : RateLimitHandler.State)
    (service : String) (tC1 tS1 tC2 tS2 : ℚ)
    (h1 : tC1 + RateLimitHandler.should_wait st service tC1 ≤ tS1)
    (hseq : tS1 ≤ tC2)
    (h2 : tC2 + RateLimitHandler.should_wait
        (RateLimitHandler.wait_if_needed st service tS1) service tC2 ≤ tS2) :
    (RateLimitHandler.wait_if_needed
        (RateLimitHandler.wait_if_needed st service tS1) service tS2).service_last_call.lookup
        service = some tS2 ∧
    tS1 + ((st.service_min_interval.lookup service).getD 0) ≤ tS2 := by
  constructor
  · exact Py.lookup_dictSet_self _ _ _
  · have hlast : ((RateLimitHandler.wait_if_needed st service tS1).service_last_call.lookup
        service).getD 0 = tS1 := by
      unfold RateLimitHandler.wait_if_needed RateLimitHandler.update_last_call
      rw [Py.lookup_dictSet_self]
      rfl
    have hmin : (RateLimitHandler.wait_if_needed st service tS1).service_min_interval =
        st.service_min_interval := rfl
    unfold RateLimitHandler.should_wait at h2
    rw [hlast, hmin] at h2
    set mi := (st.service_min_interval.lookup service).getD 0 with hmi
    by_cases hlt : tC2 - tS1 < mi
    · rw [if_pos hlt] at h2
      linarith
    · rw [if_neg hlt] at h2
      push_neg at hlt
      linarith

/-- C5 witness: the gap theorem on a fresh handler for the `arxiv`
service (minimum interval 3): checks at times 0 and 3, stamps at 3 and
6, giving a gap of exactly the minimum interval. -/
theorem wait_if_needed_sequential_gap_witness :
    (RateLimitHandler.wait_if_needed
        (RateLimitHandler.wait_if_needed RateLimitHandler.initState "arxiv" 3)
        "arxiv" 6).service_last_call.lookup "arxiv" = some 6 ∧
    (3 : ℚ) + ((RateLimitHandler.initState.service_min_interval.lookup "arxiv").getD 0) ≤ 6 :=
  wait_if_needed_sequential_gap RateLimitHandler.initState "arxiv" 0 3 3 6
    (by
      simp [RateLimitHandler.should_wait, RateLimitHandler.initState,
        RateLimitHandler.initLastCall, RateLimitHandler.initMinInterval,
        List.lookup_cons])
    (by norm_num)
    (by
      simp [RateLimitHandler.wait_if_needed, RateLimitHandler.update_last_call,
        RateLimitHandler.should_wait, RateLimitHandler.initState, Py.dictSet,
        RateLimitHandler.initLastCall, RateLimitHandler.initMinInterval,
        List.lookup_cons]
      norm_num)

/-- C10: `add_summary_to_article` with an unknown article id returns
`False` and leaves the persisted state untouched; with a known id it
returns `True` and changes only that article's metadata — adding the
summary and a summary date — leaving every other article record, the
index's `last_updated`, and the content blobs unchanged. -/
theorem add_summary_to_article_only_touches_target (st : ArticleStorage.State)
    (article_id summary nowIso : String) :
    (st.index.articles.lookup article_id = none →
      ArticleStorage.add_summary_to_article st article_id summary nowIso = (st, false)) ∧
    (∀ a, st.index.articles.lookup article_id = some a →
      (ArticleStorage.add_summary_to_article st article_id summary nowIso).2 = true ∧
      (ArticleStorage.add_summary_to_article st article_id summary nowIso).1.index.articles.lookup
          article_id =
        some { a with metadata :=
          (Py.dictSet (Py.dictSet a.metadata "summary" summary) "summary_date" nowIso) } ∧
      (∀ k, k ≠ article_id →
        (ArticleStorage.add_summary_to_article st article_id summary nowIso).1.index.articles.lookup
            k = st.index.articles.lookup k) ∧
      (ArticleStorage.add_summary_to_article st article_id summary nowIso).1.index.last_updated =
        st.index.last_updated ∧
      (ArticleStorage.add_summary_to_article st article_id summary nowIso).1.contents =
        st.contents) := by
  constructor
  · intro h
    unfold ArticleStorage.add_summary_to_article
    simp [h]
  · intro a ha
    have hsome : (st.index.articles.lookup article_id).isSome = true := by simp [ha]
    refine ⟨?_, ?_, ?_, ?_, ?_⟩
    · unfold ArticleStorage.add_summary_to_article
      rw [if_pos hsome]
    · unfold ArticleStorage.add_summary_to_article
      rw [if_pos hsome]
      simp only [Py.lookup_updValue_self, ha]
      rfl
    · intro k hk
      unfold ArticleStorage.add_summary_to_article
      rw [if_pos hsome]
      dsimp only
      exact Py.lookup_updValue_ne _ _ _ _ hk
    · unfold ArticleStorage.add_summary_to_article
      rw [if_pos hsome]
    · unfold ArticleStorage.add_summary_to_article
      rw [if_pos hsome]

/-- The `tracked` flag after one rule block: set when the rule fires,
kept otherwise. -/
theorem rule_step_snd (p : URLTracker.Tracking × Bool) (cond : Bool)
    (upd : URLTracker.Tracking → URLTracker.Tracking) :
    (URLTracker.rule_step p cond upd).2 = (cond || p.2) := by
  cases cond <;> simp [URLTracker.rule_step]

/-- A rule block whose counter update leaves `web_page_count` alone
leaves `web_page_count` alone. -/
theorem rule_step_fst_web (p : URLTracker.Tracking × Bool) (cond : Bool)
    (upd : URLTracker.Tracking → URLTracker.Tracking)
    (h : ∀ s, (upd s).web_page_count = s.web_page_count) :
    (URLTracker.rule_step p cond upd).1.web_page_count = p.1.web_page_count := by
  cases cond <;> simp [URLTracker.rule_step, h]

/-- Per-call form of the `web_page_count` rule: `_classify_and_count_url`
bumps `web_page_count` exactly when no category rule matched. -/
theorem classify_web_page_count (t : URLTracker.Tracking) (url : String) :
    (URLTracker.classify_and_count_url t url).web_page_count =
      t.web_page_count + (if URLTracker.anyRuleMatches url then 0 else 1) := by
  simp only [URLTracker.classify_and_count_url]
  rw [apply_ite URLTracker.Tracking.web_page_count]
  have e1 : ∀ s : URLTracker.Tracking,
      ({ s with wikipedia_count := s.wikipedia_count + 1 }).web_page_count =
        s.web_page_count := fun s => rfl
  have e2 : ∀ s : URLTracker.Tracking,
      ({ s with news_count := s.news_count + 1 }).web_page_count =
        s.web_page_count := fun s => rfl
  have e3 : ∀ s : URLTracker.Tracking,
      ({ s with arxiv_count := s.arxiv_count + 1 }).web_page_count =
        s.web_page_count := fun s => rfl
  have e4 : ∀ s : URLTracker.Tracking,
      ({ s with stats_sources_count := s.stats_sources_count + 1 }).web_page_count =
        s.web_page_count := fun s => rfl
  have e5 : ∀ s : URLTracker.Tracking,
      ({ s with academic_pdf_count := s.academic_pdf_count + 1 }).web_page_count =
        s.web_page_count := fun s => rfl
  have e6 : ∀ s : URLTracker.Tracking,
      ({ s with doi_papers_count := s.doi_papers_count + 1 }).web_page_count =
        s.web_page_count := fun s => rfl
  simp only [rule_step_fst_web _ _ _ e1, rule_step_fst_web _ _ _ e2,
    rule_step_fst_web _ _ _ e3, rule_step_fst_web _ _ _ e4,
    rule_step_fst_web _ _ _ e5, rule_step_fst_web _ _ _ e6]
  simp only [rule_step_snd, Bool.or_false]
  have hcond :
      ((URLTracker.academicDomains.any fun d => Py.strContains (Py.lower url) d) ||
        (Py.strContains (Py.lower url) "doi.org" || Py.strContains (Py.lower url) "/doi/" ||
          (Py.strEndsWith (Py.lower url) ".pdf" ||
            ((URLTracker.statDomains.any fun d => Py.strContains (Py.lower url) d) ||
              (Py.strContains (Py.lower url) "arxiv.org" ||
                ((URLTracker.newsDomains.any fun d => Py.strContains (Py.lower url) d) ||
                  Py.strContains (Py.lower url) "wikipedia.org")))))) =
        URLTracker.anyRuleMatches url := by
    simp only [URLTracker.anyRuleMatches]
    cases Py.strContains (Py.lower url) "wikipedia.org" <;>
      cases (URLTracker.newsDomains.any fun d => Py.strContains (Py.lower url) d) <;>
      cases Py.strContains (Py.lower url) "arxiv.org" <;>
      cases (URLTracker.statDomains.any fun d => Py.strContains (Py.lower url) d) <;>
      cases Py.strEndsWith (Py.lower url) ".pdf" <;>
      cases Py.strContains (Py.lower url) "doi.org" <;>
      cases Py.strContains (Py.lower url) "/doi/" <;>
      cases (URLTracker.academicDomains.any fun d => Py.strContains (Py.lower url) d) <;>
      rfl
  rw [hcond]
  cases hany : URLTracker.anyRuleMatches url <;> simp

/-- Per-event form for the wrapped scraper: only an untracked success
bumps `web_page_count`. -/
theorem tracked_scrape_web_page_count (t : URLTracker.Tracking)
    (ev : String × Option String) :
    (URLTracker.tracked_scrape_url t ev.1 ev.2).web_page_count =
      t.web_page_count + (if URLTracker.isUntrackedSuccess ev then 1 else 0) := by
  obtain ⟨url, res⟩ := ev
  cases res with
  | none => simp [URLTracker.tracked_scrape_url, URLTracker.isUntrackedSuccess]
  | some content =>
    by_cases hc : content = ""
    · simp [URLTracker.tracked_scrape_url, URLTracker.isUntrackedSuccess, hc]
    · simp only [URLTracker.tracked_scrape_url, URLTracker.isUntrackedSuccess]
      rw [if_pos (by simpa using hc), classify_web_page_count]
      by_cases hm : URLTracker.anyRuleMatches url = true
      · simp [hm, hc]
      · have hm2 : URLTracker.anyRuleMatches url = false := by simpa using hm
        simp [hm2, hc]

/-- C9: a successful scrape increments `web_page_count` by exactly 1 iff
none of the seven category rules (wikipedia domain, news domain list,
arxiv.org, statistics domain list, `.pdf` suffix, DOI pattern, academic
domain list) matched the lowercased url, and leaves it unchanged when at
least one rule matched — so over any run starting from `reset_tracking`,
`web_page_count` equals the number of successful scrapes whose url fell
into no named category. -/
theorem web_page_count_counts_unmatched_successes :
    (∀ (t : URLTracker.Tracking) (url : String),
      ((URLTracker.classify_and_count_url t url).web_page_count =
          t.web_page_count + 1 ↔ URLTracker.anyRuleMatches url = false) ∧
      ((URLTracker.classify_and_count_url t url).web_page_count =
          t.web_page_count ↔ URLTracker.anyRuleMatches url = true)) ∧
    (∀ (now : ℚ) (events : List (String × Option String)),
      (events.foldl (fun t ev => URLTracker.tracked_scrape_url t ev.1 ev.2)
          (URLTracker.reset_tracking now)).web_page_count =
        (events.filter URLTracker.isUntrackedSuccess).length) := by
  constructor
  · intro t url
    have h := classify_web_page_count t url
    cases hm : URLTracker.anyRuleMatches url with
    | false =>
      rw [hm] at h
      simp only [Bool.false_eq_true, if_false] at h
      rw [h]
      exact ⟨⟨fun _ => rfl, fun _ => rfl⟩,
        ⟨fun he => absurd he (by omega), fun he => by simp at he⟩⟩
    | true =>
      rw [hm] at h
      simp only [if_true] at h
      rw [h]
      exact ⟨⟨fun he => absurd he (by omega), fun he => by simp at he⟩,
        ⟨fun _ => rfl, fun _ => by omega⟩⟩
  · intro now events
    have hgen : ∀ (es : List (String × Option String)) (t : URLTracker.Tracking),
        (es.foldl (fun t ev => URLTracker.tracked_scrape_url t ev.1 ev.2) t).web_page_count =
          t.web_page_count + (es.filter URLTracker.isUntrackedSuccess).length := by
      intro es
      induction es with
      | nil => intro t; simp
      | cons ev rest ih =>
        intro t
        rw [List.foldl_cons, ih, tracked_scrape_web_page_count]
        cases h : URLTracker.isUntrackedSuccess ev <;> simp [List.filter_cons, h] <;> omega
    rw [hgen]
    simp [URLTracker.reset_tracking]

/-- What `calculate_scores` does to the recency score, as one equation:
untouched unless the publication date is truthy and parses, bucketed by
document age when it does. -/
theorem calc_scores_recency_eq (r : SourceReference) (today : Date) :
    (SourceReference.calculate_scores r today).recency_score =
      match r.publication_date with
      | none => r.recency_score
      | some s =>
        if s = "" then r.recency_score
        else
          match Strptime.parseDateChain s with
          | none => r.recency_score
          | some pub =>
            if Date.daysOld pub today < 365 then (9 : ℚ)/10
            else if Date.daysOld pub today < 365 * 3 then (7 : ℚ)/10
            else if Date.daysOld pub today < 365 * 5 then (1 : ℚ)/2
            else (3 : ℚ)/10 := by
  unfold SourceReference.calculate_scores
  cases hpd : r.publication_date with
  | none =>
    dsimp only
    split_ifs <;> rfl
  | some s =>
    dsimp only
    by_cases hs : s = ""
    · simp only [hs, if_pos]
      split_ifs <;> rfl
    · simp only [if_neg hs]
      cases hp : Strptime.parseDateChain s with
      | none => dsimp only; split_ifs <;> rfl
      | some pub => dsimp only; split_ifs <;> rfl

/-- C7: on a reference carrying the constructor's 0.5 recency default,
`calculate_scores` buckets the recency score by the document's age —
under 1 year 0.9, under 3 years 0.7, under 5 years 0.5, older 0.3 — a
publication date that parses under none of the tried formats leaves the
0.5 default, and the quality score always equals the arithmetic mean of
the relevance, recency and authority scores. -/
theorem calculate_scores_recency_buckets_quality_mean (r : SourceReference)
    (today : Date) (hdefault : r.recency_score = 1/2) :
    (∀ s pub, r.publication_date = some s → s ≠ "" →
      Strptime.parseDateChain s = some pub →
      ((Date.daysOld pub today < 365 →
          (SourceReference.calculate_scores r today).recency_score = 9/10) ∧
       (365 ≤ Date.daysOld pub today → Date.daysOld pub today < 1095 →
          (SourceReference.calculate_scores r today).recency_score = 7/10) ∧
       (1095 ≤ Date.daysOld pub today → Date.daysOld pub today < 1825 →
          (SourceReference.calculate_scores r today).recency_score = 1/2) ∧
       (1825 ≤ Date.daysOld pub today →
          (SourceReference.calculate_scores r today).recency_score = 3/10))) ∧
    (∀ s, r.publication_date = some s → Strptime.parseDateChain s = none →
      (SourceReference.calculate_scores r today).recency_score = 1/2) ∧
    (r.publication_date = none →
      (SourceReference.calculate_scores r today).recency_score = 1/2) ∧
    (SourceReference.calculate_scores r today).quality_score =
      ((SourceReference.calculate_scores r today).relevance_score +
       (SourceReference.calculate_scores r today).recency_score +
       (SourceReference.calculate_scores r today).authority_score) / 3 := by
  refine ⟨?_, ?_, ?_, rfl⟩
  · intro s pub hpd hs hp
    rw [calc_scores_recency_eq, hpd]
    simp only [if_neg hs, hp]
    refine ⟨fun h1 => ?_, fun h2a h2b => ?_, fun h3a h3b => ?_, fun h4 => ?_⟩
    · rw [if_pos h1]
    · have hn1 : ¬Date.daysOld pub today < 365 := by omega
      have hy : Date.daysOld pub today < 365 * 3 := by omega
      rw [if_neg hn1, if_pos hy]
    · have hn1 : ¬Date.daysOld pub today < 365 := by omega
      have hn2 : ¬Date.daysOld pub today < 365 * 3 := by omega
      have hy : Date.daysOld pub today < 365 * 5 := by omega
      rw [if_neg hn1, if_neg hn2, if_pos hy]
    · have hn1 : ¬Date.daysOld pub today < 365 := by omega
      have hn2 : ¬Date.daysOld pub today < 365 * 3 := by omega
      have hn3 : ¬Date.daysOld pub today < 365 * 5 := by omega
      rw [if_neg hn1, if_neg hn2, if_neg hn3]
  · intro s hpd hp
    rw [calc_scores_recency_eq, hpd]
    by_cases hs : s = "" <;> simp [hs, hp, hdefault]
  · intro hpd
    rw [calc_scores_recency_eq, hpd]
    exact hdefault

/-- C7 witness: the theorem at a concrete reference (publication date
`"2020-05-17"`, constructor defaults) and today `2026-10-12`. -/
theorem calculate_scores_recency_buckets_quality_mean_witness :
    (SourceReference.calculate_scores
        { id := "1", title := "T", url := "u", publication_date := some "2020-05-17" }
        ⟨2026, 10, 12⟩).quality_score =
      ((SourceReference.calculate_scores
          { id := "1", title := "T", url := "u", publication_date := some "2020-05-17" }
          ⟨2026, 10, 12⟩).relevance_score +
       (SourceReference.calculate_scores
          { id := "1", title := "T", url := "u", publication_date := some "2020-05-17" }
          ⟨2026, 10, 12⟩).recency_score +
       (SourceReference.calculate_scores
          { id := "1", title := "T", url := "u", publication_date := some "2020-05-17" }
          ⟨2026, 10, 12⟩).authority_score) / 3 :=
  (calculate_scores_recency_buckets_quality_mean
    { id := "1", title := "T", url := "u", publication_date := some "2020-05-17" }
    ⟨2026, 10, 12⟩ rfl).2.2.2

/-- C8 counterexample: in a registry holding a reference without a
citation number and one numbered 1000, `generate_references_section`'s
sort puts the unnumbered reference (sort key 999) before the numbered
one — refuting "every reference whose citation_number is missing is
sorted after all references that have one". -/
theorem references_missing_number_not_sorted_last :
    Citation.sortedReferences
        { references :=
            [("u1", { id := "a", title := "A", url := "u1" }),
             ("u2", { id := "b", title := "B", url := "u2", citation_number := some 1000 })],
          reference_map := [], style := "apa", citation_counter := 1 } =
      [{ id := "a", title := "A", url := "u1" },
       { id := "b", title := "B", url := "u2", citation_number := some 1000 }] ∧
    ({ id := "a", title := "A", url := "u1" } : SourceReference).citation_number = none ∧
    ({ id := "b", title := "B", url := "u2",
       citation_number := some 1000 } : SourceReference).citation_number = some 1000 := by
  refine ⟨?_, rfl, rfl⟩
  unfold Citation.sortedReferences
  apply List.mergeSort_of_sorted
  refine List.Pairwise.cons ?_ (List.pairwise_singleton _ _)
  intro b hb
  simp only [List.map_cons, List.map_nil, List.mem_singleton] at hb
  subst hb
  rfl

/-- C8 (amended): `generate_references_section` lists the references
stable-sorted ascending by the key "citation_number if present, else
999": the output is a permutation of the registry's references, is
pairwise ordered by that key, and any two references already ordered by
the key keep their relative order (stability).  In particular a
reference with a missing citation_number sorts after every reference
numbered below 999, but before one numbered above 999. -/
theorem generate_references_sorted_key_capped (c : Citation) :
    List.Perm (Citation.sortedReferences c) (c.references.map Prod.snd) ∧
    List.Pairwise (fun a b => Citation.sortKey a ≤ Citation.sortKey b)
      (Citation.sortedReferences c) ∧
    (∀ a b, Citation.sortKey a ≤ Citation.sortKey b →
      [a, b].Sublist (c.references.map Prod.snd) →
      [a, b].Sublist (Citation.sortedReferences c)) := by
  have htrans : ∀ (x y z : SourceReference),
      (Citation.sortKey x ≤ Citation.sortKey y : Bool) →
      (Citation.sortKey y ≤ Citation.sortKey z : Bool) →
      (Citation.sortKey x ≤ Citation.sortKey z : Bool) := by
    intro x y z hxy hyz
    simp only [decide_eq_true_iff] at hxy hyz ⊢
    omega
  have htotal : ∀ (x y : SourceReference),
      ((Citation.sortKey x ≤ Citation.sortKey y : Bool) ||
       (Citation.sortKey y ≤ Citation.sortKey x : Bool)) := by
    intro x y
    simp only [Bool.or_eq_true, decide_eq_true_iff]
    omega
  refine ⟨List.mergeSort_perm _ _, ?_, ?_⟩
  · have hs := List.sorted_mergeSort htrans htotal (c.references.map Prod.snd)
    exact hs.imp (fun hab => by simpa using hab)
  · intro a b hab hsub
    exact List.pair_sublist_mergeSort htrans htotal (by simpa using hab) hsub

/-- `store_article` preserves the index invariant: keys stay distinct
and each record stays keyed by the hash of its url. -/
theorem store_article_wellFormed (st : ArticleStorage.State)
    (url title content source_type : String) (metadata : List (String × String))
    (now : ℚ) (nowIso : String) (h : ArticleStorage.WellFormed st) :
    ArticleStorage.WellFormed
      (ArticleStorage.store_article st url title content source_type
        metadata now nowIso).1 := by
  obtain ⟨hn, hwf⟩ := h
  constructor
  · exact Py.keys_nodup_dictSet _ _ hn
  · intro p hp
    rcases Py.mem_dictSet hp with heq | ⟨hmem, _⟩
    · subst heq
      rfl
    · exact hwf p hmem

/-- In a well-formed index that resolves `hash_url url` to a record for
`url`, exactly one record carries that url. -/
theorem count_records_for_url {d : List (String × ArticleData)} {url : String}
    {a : ArticleData} (hn : (d.map Prod.fst).Nodup)
    (hwf : ∀ p ∈ d, p.1 = ArticleStorage.hash_url p.2.url)
    (hl : d.lookup (ArticleStorage.hash_url url) = some a) (ha : a.url = url) :
    (d.filter (fun p => p.2.url == url)).length = 1 := by
  induction d with
  | nil => simp at hl
  | cons q rest ih =>
    obtain ⟨k, v⟩ := q
    simp only [List.map_cons] at hn
    rcases hkk : (ArticleStorage.hash_url url == k) with _ | _
    · have hl' : rest.lookup (ArticleStorage.hash_url url) = some a := by
        simpa [List.lookup_cons, hkk] using hl
      have hvne : ¬(v.url == url) = true := by
        intro hv
        have hv' : v.url = url := by simpa using hv
        have hk := hwf (k, v) (List.mem_cons_self _ _)
        dsimp only at hk
        rw [hv'] at hk
        rw [hk] at hkk
        simp at hkk
      rw [List.filter_cons, if_neg hvne]
      exact ih (List.nodup_cons.mp hn).2
        (fun p hp => hwf p (List.mem_cons_of_mem _ hp)) hl'
    · have hk : ArticleStorage.hash_url url = k := by simpa using hkk
      have hav : v = a := by
        have := hl
        simp only [List.lookup_cons, hkk] at this
        exact Option.some.inj this
      have hvurl : (v.url == url) = true := by
        rw [hav]
        simpa using ha
      rw [List.filter_cons, if_pos hvurl]
      have hrest : rest.filter (fun p => p.2.url == url) = [] := by
        rw [List.filter_eq_nil_iff]
        intro p hp hpu
        have h1 := hwf p (List.mem_cons_of_mem _ hp)
        have h2 : p.2.url = url := by simpa using hpu
        rw [h2, hk] at h1
        exact (List.nodup_cons.mp hn).1
          (List.mem_map.mpr ⟨p, hp, h1⟩)
      rw [hrest]
      rfl

/-- C4: two `store_article` calls for the same url return the same id
both times (the stable url hash), the second call overwrites the stored
content and the index record (title, type, timestamp, metadata) of the
first, and the well-formed index holds exactly one record for that url
afterwards. -/
theorem store_article_idempotent_per_url (st : ArticleStorage.State)
    (url title1 content1 type1 title2 content2 type2 : String)
    (m1 m2 : List (String × String)) (now1 now2 : ℚ) (iso1 iso2 : String)
    (h : ArticleStorage.WellFormed st) :
    (ArticleStorage.store_article st url title1 content1 type1 m1 now1 iso1).2 =
        ArticleStorage.hash_url url ∧
    (ArticleStorage.store_article
        (ArticleStorage.store_article st url title1 content1 type1 m1 now1 iso1).1
        url title2 content2 type2 m2 now2 iso2).2 = ArticleStorage.hash_url url ∧
    (ArticleStorage.store_article
        (ArticleStorage.store_article st url title1 content1 type1 m1 now1 iso1).1
        url title2 content2 type2 m2 now2 iso2).1.index.articles.lookup
        (ArticleStorage.hash_url url) =
      some { id := ArticleStorage.hash_url url, url := url, title := title2,
             source_type := type2, timestamp := now2, date_added := iso2,
             metadata := m2 } ∧
    (ArticleStorage.store_article
        (ArticleStorage.store_article st url title1 content1 type1 m1 now1 iso1).1
        url title2 content2 type2 m2 now2 iso2).1.contents.lookup
        (ArticleStorage.hash_url url) = some content2 ∧
    ((ArticleStorage.store_article
        (ArticleStorage.store_article st url title1 content1 type1 m1 now1 iso1).1
        url title2 content2 type2 m2 now2 iso2).1.index.articles.filter
        (fun p => p.2.url == url)).length = 1 ∧
    ArticleStorage.WellFormed
      (ArticleStorage.store_article
        (ArticleStorage.store_article st url title1 content1 type1 m1 now1 iso1).1
        url title2 content2 type2 m2 now2 iso2).1 := by
  have w1 := store_article_wellFormed st url title1 content1 type1 m1 now1 iso1 h
  have w2 := store_article_wellFormed _ url title2 content2 type2 m2 now2 iso2 w1
  refine ⟨rfl, rfl, ?_, ?_, ?_, w2⟩
  · exact Py.lookup_dictSet_self _ _ _
  · exact Py.lookup_dictSet_self _ _ _
  · exact count_records_for_url w2.1 w2.2 (Py.lookup_dictSet_self _ _ _) rfl

/-- C4 witness: the theorem on the empty storage, url `"http://x"` —
after storing twice, the index holds exactly one record for the url. -/
theorem store_article_idempotent_per_url_witness :
    ((ArticleStorage.store_article
        (ArticleStorage.store_article ⟨⟨[], "t0"⟩, []⟩
          "http://x" "T1" "body one" "web" [] 1 "iso1").1
        "http://x" "T2" "body two" "web" [] 2 "iso2").1.index.articles.filter
        (fun p => p.2.url == "http://x")).length = 1 :=
  (store_article_idempotent_per_url ⟨⟨[], "t0"⟩, []⟩ "http://x" "T1" "body one"
    "web" "T2" "body two" "web" [] [] 1 2 "iso1" "iso2"
    ⟨List.nodup_nil, by simp⟩).2.2.2.2.1

/-- The MD5 implementation behind `hash_url` agrees with the reference
digests of the empty message and of `"abc"`. -/
theorem md5Hex_reference_digests :
    MD5.md5Hex [] = "d41d8cd98f00b204e9800998ecf8427e" ∧
    MD5.md5Hex (Py.encode "abc") = "900150983cd24fb0d6963f7d28e17f72" :=
  ⟨by decide, by decide⟩
